import Mathlib

/-!
# PropertyHub — verification of the filter/favorites core

Shallow embedding of the PropertyHub client (a property-listing search and
favorites browser).  The embedded functions follow the TypeScript source:

* `handleSearch` — the filter engine (`Index.handleSearch` in
  `src/pages/PropertyDetail.tsx`), a chain of guarded `Array.filter` passes;
* `handleFavorite` — the favorites toggle shared by the listing and the
  detail view;
* `handleFavoriteIdx` / `clearFavorites` — the stateful versions that also
  write the `localStorage` slot `propertyFavorites`;
* `hydrateFavorites` — the startup read of that slot;
* `findById` — the detail view's lookup of a property from the textual
  route parameter.

JavaScript-specific behaviour is modelled explicitly:

* a JS `number` occurring in a filter criterion is `JsNum`, either a proper
  integer or `NaN` (produced by `parseInt` on non-numeric text);
* the truthiness guards (`if (filters.minPrice) …`) are embedded as written,
  so `0`, `NaN`, `undefined` and the empty string all disable a criterion;
* `localStorage` is an association list of string slots;
* `JSON.stringify` / `JSON.parse` are modelled by `stringifyProps` /
  `parseProps`: `stringifyProps` produces the canonical (whitespace-free,
  declaration-ordered) serialization, and `parseProps` accepts exactly that
  canonical shape, returning `none` where `JSON.parse` would throw a
  `SyntaxError` or produce a value of a different shape;
* JS `Date` comparison of ISO `YYYY-MM-DD` strings is modelled by
  `parseDate`, which maps a valid calendar date to a monotone numeric key
  and an invalid string to `none` (JS `Invalid Date`, whose comparisons are
  all false).
-/

/-- A property record, mirroring the `Property` interface in
`src/types/Property.ts` field for field. -/
structure Property where
  id : Nat
  type : String
  bedrooms : Nat
  price : Nat
  location : String
  description : String
  added : String
  picture : String
  images : List String
  url : String
  tenure : String
  postcode : String
deriving DecidableEq

/-- A JavaScript number as it can occur in a filter criterion: either an
integer or `NaN` (the result of `parseInt` on non-numeric text). -/
inductive JsNum where
  | nan : JsNum
  | num : Int → JsNum
deriving DecidableEq

/-- JS truthiness of a number: `0` and `NaN` are falsy. -/
def JsNum.truthy : JsNum → Bool
  | JsNum.nan => false
  | JsNum.num n => n != 0

/-- The `SearchFilters` interface of `src/types/Property.ts`: every field is
optional (`undefined` is `none`). -/
structure SearchFilters where
  type : Option String := none
  minPrice : Option JsNum := none
  maxPrice : Option JsNum := none
  minBedrooms : Option JsNum := none
  maxBedrooms : Option JsNum := none
  postcodeArea : Option String := none
  dateFrom : Option String := none
  dateTo : Option String := none
deriving DecidableEq

/-! ## String helpers (JS `String.prototype` methods used by the source) -/

/-- `needle` occurs at the head of `hay`. -/
def subAt : List Char → List Char → Bool
  | [], _ => true
  | _ :: _, [] => false
  | n :: ns, h :: hs => n == h && subAt ns hs

/-- `needle` occurs somewhere in `hay` (consecutively). -/
def hasSub : List Char → List Char → Bool
  | [], needle => needle.isEmpty
  | h :: hs, needle => subAt needle (h :: hs) || hasSub hs needle

/-- JS `hay.includes(needle)`. -/
def strIncludes (hay needle : String) : Bool :=
  hasSub hay.toList needle.toList

/-- Digits of a string read as a base-10 natural number. -/
def digitsToNat (ds : List Char) : Nat :=
  ds.foldl (fun a c => a * 10 + (c.toNat - 48)) 0

/-- JS `parseInt` with no radix on route text: skip leading whitespace, an
optional sign, then the longest run of decimal digits; `NaN` when there is
no digit.  (The hexadecimal `0x` prefix form never arises from routing and
is not modelled.) -/
def parseIntJs (s : String) : JsNum :=
  let cs := s.toList.dropWhile Char.isWhitespace
  let signed : Bool × List Char :=
    match cs with
    | '-' :: rest => (true, rest)
    | '+' :: rest => (false, rest)
    | _ => (false, cs)
  let ds := signed.2.takeWhile Char.isDigit
  if ds = [] then JsNum.nan
  else if signed.1 then JsNum.num (-(digitsToNat ds : Int))
  else JsNum.num (digitsToNat ds : Int)

/-! ## Dates (JS `new Date(s)` on ISO `YYYY-MM-DD` strings) -/

def isLeapYear (y : Nat) : Bool :=
  (y % 4 == 0 && y % 100 != 0) || y % 400 == 0

def daysInMonth (y m : Nat) : Nat :=
  if m = 2 then (if isLeapYear y then 29 else 28)
  else if m = 4 ∨ m = 6 ∨ m = 9 ∨ m = 11 then 30
  else 31

def allDigits (s : String) : Bool := s.toList.all Char.isDigit

/-- Parse an ISO `YYYY-MM-DD` date string to a numeric key that is strictly
monotone in calendar order (mirroring the JS `Date` timestamp for the
comparisons the source performs); `none` models JS `Invalid Date`. -/
def parseDate (s : String) : Option Nat :=
  match s.splitOn "-" with
  | [ys, ms, ds] =>
    if ys.length = 4 ∧ ms.length = 2 ∧ ds.length = 2
        ∧ allDigits ys ∧ allDigits ms ∧ allDigits ds then
      let y := digitsToNat ys.toList
      let m := digitsToNat ms.toList
      let d := digitsToNat ds.toList
      if 1 ≤ m ∧ m ≤ 12 ∧ 1 ≤ d ∧ d ≤ daysInMonth y m then
        some (y * 10000 + m * 100 + d)
      else none
    else none
  | _ => none

/-- JS `new Date(a) >= new Date(b)`: false whenever either side is an
invalid date (`NaN` comparison). -/
def dateGe (a b : String) : Bool :=
  match parseDate a, parseDate b with
  | some x, some y => decide (x ≥ y)
  | _, _ => false

/-- JS `new Date(a) <= new Date(b)`: false whenever either side is invalid. -/
def dateLe (a b : String) : Bool :=
  match parseDate a, parseDate b with
  | some x, some y => decide (x ≤ y)
  | _, _ => false

/-! ## The filter engine (`handleSearch` in the Index page)

Each stage embeds one `if (filters.x) { filtered = filtered.filter(…) }`
block of the source, guard (JS truthiness) included. -/

def applyType (f : SearchFilters) (l : List Property) : List Property :=
  match f.type with
  | some t => if t ≠ "" ∧ t ≠ "Any" then l.filter (fun p => p.type == t) else l
  | none => l

def applyMinPrice (f : SearchFilters) (l : List Property) : List Property :=
  match f.minPrice with
  | some (JsNum.num n) =>
      if n ≠ 0 then l.filter (fun p => decide ((p.price : Int) ≥ n)) else l
  | _ => l

def applyMaxPrice (f : SearchFilters) (l : List Property) : List Property :=
  match f.maxPrice with
  | some (JsNum.num n) =>
      if n ≠ 0 then l.filter (fun p => decide ((p.price : Int) ≤ n)) else l
  | _ => l

def applyMinBedrooms (f : SearchFilters) (l : List Property) : List Property :=
  match f.minBedrooms with
  | some (JsNum.num n) =>
      if n ≠ 0 then l.filter (fun p => decide ((p.bedrooms : Int) ≥ n)) else l
  | _ => l

def applyMaxBedrooms (f : SearchFilters) (l : List Property) : List Property :=
  match f.maxBedrooms with
  | some (JsNum.num n) =>
      if n ≠ 0 then l.filter (fun p => decide ((p.bedrooms : Int) ≤ n)) else l
  | _ => l

def applyPostcode (f : SearchFilters) (l : List Property) : List Property :=
  match f.postcodeArea with
  | some a =>
      if a ≠ "" then l.filter (fun p => strIncludes p.postcode.toLower a.toLower)
      else l
  | none => l

def applyDateFrom (f : SearchFilters) (l : List Property) : List Property :=
  match f.dateFrom with
  | some s => if s ≠ "" then l.filter (fun p => dateGe p.added s) else l
  | none => l

def applyDateTo (f : SearchFilters) (l : List Property) : List Property :=
  match f.dateTo with
  | some s => if s ≠ "" then l.filter (fun p => dateLe p.added s) else l
  | none => l

/-- `handleSearch` of the Index page: the eight guarded filter passes in
source order. -/
def handleSearch (properties : List Property) (filters : SearchFilters) :
    List Property :=
  applyDateTo filters (applyDateFrom filters (applyPostcode filters
    (applyMaxBedrooms filters (applyMinBedrooms filters (applyMaxPrice filters
      (applyMinPrice filters (applyType filters properties)))))))

/-! ## The single-pass predicate equivalent to the eight passes -/

def matchesType (f : SearchFilters) (p : Property) : Bool :=
  match f.type with
  | some t => if t ≠ "" ∧ t ≠ "Any" then p.type == t else true
  | none => true

def matchesMinPrice (f : SearchFilters) (p : Property) : Bool :=
  match f.minPrice with
  | some (JsNum.num n) => if n ≠ 0 then decide ((p.price : Int) ≥ n) else true
  | _ => true

def matchesMaxPrice (f : SearchFilters) (p : Property) : Bool :=
  match f.maxPrice with
  | some (JsNum.num n) => if n ≠ 0 then decide ((p.price : Int) ≤ n) else true
  | _ => true

def matchesMinBedrooms (f : SearchFilters) (p : Property) : Bool :=
  match f.minBedrooms with
  | some (JsNum.num n) => if n ≠ 0 then decide ((p.bedrooms : Int) ≥ n) else true
  | _ => true

def matchesMaxBedrooms (f : SearchFilters) (p : Property) : Bool :=
  match f.maxBedrooms with
  | some (JsNum.num n) => if n ≠ 0 then decide ((p.bedrooms : Int) ≤ n) else true
  | _ => true

def matchesPostcode (f : SearchFilters) (p : Property) : Bool :=
  match f.postcodeArea with
  | some a => if a ≠ "" then strIncludes p.postcode.toLower a.toLower else true
  | none => true

def matchesDateFrom (f : SearchFilters) (p : Property) : Bool :=
  match f.dateFrom with
  | some s => if s ≠ "" then dateGe p.added s else true
  | none => true

def matchesDateTo (f : SearchFilters) (p : Property) : Bool :=
  match f.dateTo with
  | some s => if s ≠ "" then dateLe p.added s else true
  | none => true

/-- Conjunction of the eight per-criterion predicates, a criterion counting
as present exactly when its truthiness guard in the source fires. -/
def matchesFilters (f : SearchFilters) (p : Property) : Bool :=
  matchesType f p && matchesMinPrice f p && matchesMaxPrice f p &&
  matchesMinBedrooms f p && matchesMaxBedrooms f p && matchesPostcode f p &&
  matchesDateFrom f p && matchesDateTo f p

/-- Whether the `type` criterion's guard fires. -/
def typeActive (f : SearchFilters) : Bool :=
  match f.type with
  | some t => decide (t ≠ "" ∧ t ≠ "Any")
  | none => false

/-- Whether a numeric criterion's guard fires (JS truthiness). -/
def numActive : Option JsNum → Bool
  | some j => j.truthy
  | none => false

/-- Whether a string criterion's guard fires (JS truthiness). -/
def strActive : Option String → Bool
  | some s => s != ""
  | none => false

/-- No criterion's guard fires: the search is criterion-free. -/
def criterionActive (f : SearchFilters) : Bool :=
  typeActive f || numActive f.minPrice || numActive f.maxPrice ||
  numActive f.minBedrooms || numActive f.maxBedrooms ||
  strActive f.postcodeArea || strActive f.dateFrom || strActive f.dateTo

/-! ## Favorites: the toggle shared by both views -/

/-- `handleFavorite` (both in the Index page and the detail view): membership
is decided by `id` (`favorites.some(fav => fav.id === property.id)`); removal
filters by `id`, addition appends at the end. -/
def handleFavorite (favorites : List Property) (property : Property) :
    List Property :=
  if favorites.any (fun fav => fav.id == property.id) then
    favorites.filter (fun fav => fav.id != property.id)
  else
    favorites ++ [property]

/-! ## Browser storage (`localStorage`) -/

/-- The browser's key-value storage, as an association list of slots. -/
structure Storage where
  slots : List (String × String)
deriving DecidableEq

def Storage.getItem (st : Storage) (key : String) : Option String :=
  (st.slots.find? (fun kv => kv.1 == key)).map (fun kv => kv.2)

def Storage.setItem (st : Storage) (key value : String) : Storage :=
  ⟨(key, value) :: st.slots.filter (fun kv => kv.1 != key)⟩

def Storage.removeItem (st : Storage) (key : String) : Storage :=
  ⟨st.slots.filter (fun kv => kv.1 != key)⟩

/-- The single well-known storage key of the favorites store. -/
def favoritesKey : String := "propertyFavorites"

/-! ## Serialization (`JSON.stringify` of the favorites list)

`JSON.stringify` on the property objects yields the canonical form: no
whitespace, object keys in declaration order, strings quoted with `"`, `\`
and control characters escaped. -/

def escapeJson (s : String) : String :=
  String.join (s.toList.map (fun c =>
    if c = '"' then "\\\""
    else if c = '\\' then "\\\\"
    else if c = '\n' then "\\n"
    else if c = '\t' then "\\t"
    else if c = '\r' then "\\r"
    else String.singleton c))

def quoteJson (s : String) : String := "\"" ++ escapeJson s ++ "\""

def stringifyStrList (l : List String) : String :=
  "[" ++ String.intercalate "," (l.map quoteJson) ++ "]"

def stringifyProp (p : Property) : String :=
  "\x7b\"id\":" ++ toString p.id ++
  ",\"type\":" ++ quoteJson p.type ++
  ",\"bedrooms\":" ++ toString p.bedrooms ++
  ",\"price\":" ++ toString p.price ++
  ",\"location\":" ++ quoteJson p.location ++
  ",\"description\":" ++ quoteJson p.description ++
  ",\"added\":" ++ quoteJson p.added ++
  ",\"picture\":" ++ quoteJson p.picture ++
  ",\"images\":" ++ stringifyStrList p.images ++
  ",\"url\":" ++ quoteJson p.url ++
  ",\"tenure\":" ++ quoteJson p.tenure ++
  ",\"postcode\":" ++ quoteJson p.postcode ++ "\x7d"

/-- `JSON.stringify(favorites)`. -/
def stringifyProps (l : List Property) : String :=
  "[" ++ String.intercalate "," (l.map stringifyProp) ++ "]"

/-! ## Deserialization (`JSON.parse` on hydration)

`parseProps` accepts exactly the canonical serialization above and yields
`none` otherwise — the inputs on which the source's bare `JSON.parse` call
either throws a `SyntaxError` or returns a value that is not a property
list.  (`JSON.parse` also accepts non-canonical spellings of the same data,
e.g. extra whitespace; no claim distinguishes those inputs.) -/

/-- Consume an expected literal sequence of characters. -/
def parseExact : List Char → List Char → Option (List Char)
  | [], cs => some cs
  | _ :: _, [] => none
  | l :: ls, c :: cs => if c = l then parseExact ls cs else none

/-- Body of a JSON string after the opening quote, undoing `escapeJson`. -/
def parseStrBody : List Char → Option (String × List Char)
  | [] => none
  | '"' :: cs => some ("", cs)
  | '\\' :: e :: cs => do
      let c ← match e with
        | '"' => some '"'
        | '\\' => some '\\'
        | '/' => some '/'
        | 'n' => some '\n'
        | 't' => some '\t'
        | 'r' => some '\r'
        | _ => none
      let sr ← parseStrBody cs
      some (String.singleton c ++ sr.1, sr.2)
  | c :: cs => do
      let sr ← parseStrBody cs
      some (String.singleton c ++ sr.1, sr.2)

def parseQuoted (cs : List Char) : Option (String × List Char) :=
  match cs with
  | '"' :: rest => parseStrBody rest
  | _ => none

def parseNatChars (cs : List Char) : Option (Nat × List Char) :=
  let ds := cs.takeWhile Char.isDigit
  if ds = [] then none
  else some (digitsToNat ds, cs.dropWhile Char.isDigit)

def parseStrItems : Nat → List Char → Option (List String × List Char)
  | 0, _ => none
  | fuel + 1, cs => do
      let sr ← parseQuoted cs
      match sr.2 with
      | ',' :: rest => do
          let lr ← parseStrItems fuel rest
          some (sr.1 :: lr.1, lr.2)
      | rest => some ([sr.1], rest)

def parseStrArray (cs : List Char) : Option (List String × List Char) :=
  match cs with
  | '[' :: ']' :: rest => some ([], rest)
  | '[' :: rest => do
      let lr ← parseStrItems (rest.length + 1) rest
      match lr.2 with
      | ']' :: rest2 => some (lr.1, rest2)
      | _ => none
  | _ => none

/-- Parse the `id`, `type`, `bedrooms` fields (with the opening brace). -/
def parsePropA (cs0 : List Char) : Option (Nat × String × Nat × List Char) := do
  let c1 ← parseExact "\x7b\"id\":".toList cs0
  let r1 ← parseNatChars c1
  let c2 ← parseExact ",\"type\":".toList r1.2
  let r2 ← parseQuoted c2
  let c3 ← parseExact ",\"bedrooms\":".toList r2.2
  let r3 ← parseNatChars c3
  some (r1.1, r2.1, r3.1, r3.2)

/-- Parse the `price`, `location`, `description` fields. -/
def parsePropB (cs0 : List Char) : Option (Nat × String × String × List Char) := do
  let c1 ← parseExact ",\"price\":".toList cs0
  let r1 ← parseNatChars c1
  let c2 ← parseExact ",\"location\":".toList r1.2
  let r2 ← parseQuoted c2
  let c3 ← parseExact ",\"description\":".toList r2.2
  let r3 ← parseQuoted c3
  some (r1.1, r2.1, r3.1, r3.2)

/-- Parse the `added`, `picture`, `images` fields. -/
def parsePropC (cs0 : List Char) :
    Option (String × String × List String × List Char) := do
  let c1 ← parseExact ",\"added\":".toList cs0
  let r1 ← parseQuoted c1
  let c2 ← parseExact ",\"picture\":".toList r1.2
  let r2 ← parseQuoted c2
  let c3 ← parseExact ",\"images\":".toList r2.2
  let r3 ← parseStrArray c3
  some (r1.1, r2.1, r3.1, r3.2)

/-- Parse the `url`, `tenure`, `postcode` fields and the closing brace. -/
def parsePropD (cs0 : List Char) :
    Option (String × String × String × List Char) := do
  let c1 ← parseExact ",\"url\":".toList cs0
  let r1 ← parseQuoted c1
  let c2 ← parseExact ",\"tenure\":".toList r1.2
  let r2 ← parseQuoted c2
  let c3 ← parseExact ",\"postcode\":".toList r2.2
  let r3 ← parseQuoted c3
  let c4 ← parseExact "\x7d".toList r3.2
  some (r1.1, r2.1, r3.1, c4)

/-- Parse one serialized property object. -/
def parseProp (cs0 : List Char) : Option (Property × List Char) := do
  let a ← parsePropA cs0
  let b ← parsePropB a.2.2.2
  let c ← parsePropC b.2.2.2
  let d ← parsePropD c.2.2.2
  some (Property.mk a.1 a.2.1 a.2.2.1 b.1 b.2.1 b.2.2.1 c.1 c.2.1 c.2.2.1
    d.1 d.2.1 d.2.2.1, d.2.2.2)

def parsePropItems : Nat → List Char → Option (List Property × List Char)
  | 0, _ => none
  | fuel + 1, cs => do
      let pr ← parseProp cs
      match pr.2 with
      | ',' :: rest => do
          let lr ← parsePropItems fuel rest
          some (pr.1 :: lr.1, lr.2)
      | rest => some ([pr.1], rest)

/-- `JSON.parse` restricted to the canonical favorites serialization; `none`
models a thrown `SyntaxError` (or a parse to a non-list shape). -/
def parseProps (s : String) : Option (List Property) :=
  match s.toList with
  | ['[', ']'] => some []
  | '[' :: rest => do
      let lr ← parsePropItems (rest.length + 1) rest
      match lr.2 with
      | [']'] => some lr.1
      | _ => none
  | _ => none

/-! ## The Index page's stateful favorites operations -/

/-- In-memory state of the Index page that the favorites operations touch:
the favorites list plus the browser storage. -/
structure IndexState where
  favorites : List Property
  storage : Storage

/-- `handleFavorite` of the Index page: compute the toggled list, store it in
state, and synchronously write the serialized snapshot to the storage slot. -/
def handleFavoriteIdx (st : IndexState) (property : Property) : IndexState :=
  let newFavorites := handleFavorite st.favorites property
  { favorites := newFavorites,
    storage := st.storage.setItem favoritesKey (stringifyProps newFavorites) }

/-- `clearFavorites` of the Index page: empty the list and erase the slot
(`localStorage.removeItem`), not write an empty list. -/
def clearFavorites (st : IndexState) : IndexState :=
  { favorites := [], storage := st.storage.removeItem favoritesKey }

/-- Outcome of hydration: either a favorites list, or an exception that
escaped (the source wraps `JSON.parse` in no try/catch). -/
inductive LoadResult where
  | loaded : List Property → LoadResult
  | thrown : String → LoadResult
deriving DecidableEq

/-- Hydration at startup (the `useEffect` in both the Index page and the
detail view): read the slot; a missing or empty (falsy) value leaves the
initial empty list; a present value goes straight to `JSON.parse` with no
try/catch, so a parse failure propagates — modelled as `LoadResult.thrown`. -/
def hydrateFavorites (st : Storage) : LoadResult :=
  match st.getItem favoritesKey with
  | none => LoadResult.loaded []
  | some s =>
      if s = "" then LoadResult.loaded []
      else
        match parseProps s with
        | some favs => LoadResult.loaded favs
        | none => LoadResult.thrown "SyntaxError"

/-! ## Detail lookup (`findById`) -/

/-- The detail view's lookup from the textual route parameter:
`parseInt(id || '0')` followed by `propertiesData.find(p => p.id === propertyId)`.
A `NaN` parse matches no record (`===` with `NaN` is always false). -/
def findById (catalog : List Property) (idParam : Option String) :
    Option Property :=
  let s := match idParam with
    | none => "0"
    | some t => if t = "" then "0" else t
  match parseIntJs s with
  | JsNum.nan => none
  | JsNum.num n => catalog.find? (fun p => (p.id : Int) == n)

/-! ## The search form's criterion update (`handleFilterChange`)

The source writes `[key]: value || undefined`, so a falsy value (empty
string, `0`, `NaN`) is stored as `undefined`.  One setter per field kind
stands for the generic keyed update. -/

def orUndefinedNum (v : JsNum) : Option JsNum :=
  if v.truthy then some v else none

def orUndefinedStr (v : String) : Option String :=
  if v != "" then some v else none

def handleFilterChangeMinPrice (prev : SearchFilters) (value : JsNum) :
    SearchFilters :=
  { prev with minPrice := orUndefinedNum value }

def handleFilterChangeMaxPrice (prev : SearchFilters) (value : JsNum) :
    SearchFilters :=
  { prev with maxPrice := orUndefinedNum value }

/-! ## Lemmas: each guarded pass is a single `List.filter` -/

lemma applyType_eq (f : SearchFilters) (l : List Property) :
    applyType f l = l.filter (fun p => matchesType f p) := by
  unfold applyType matchesType
  cases f.type with
  | none => simp
  | some t =>
    by_cases hc : t ≠ "" ∧ t ≠ "Any" <;> simp [hc]

lemma applyMinPrice_eq (f : SearchFilters) (l : List Property) :
    applyMinPrice f l = l.filter (fun p => matchesMinPrice f p) := by
  unfold applyMinPrice matchesMinPrice
  cases f.minPrice with
  | none => simp
  | some j =>
    cases j with
    | nan => simp
    | num n => by_cases hn : n ≠ 0 <;> simp [hn]

lemma applyMaxPrice_eq (f : SearchFilters) (l : List Property) :
    applyMaxPrice f l = l.filter (fun p => matchesMaxPrice f p) := by
  unfold applyMaxPrice matchesMaxPrice
  cases f.maxPrice with
  | none => simp
  | some j =>
    cases j with
    | nan => simp
    | num n => by_cases hn : n ≠ 0 <;> simp [hn]

lemma applyMinBedrooms_eq (f : SearchFilters) (l : List Property) :
    applyMinBedrooms f l = l.filter (fun p => matchesMinBedrooms f p) := by
  unfold applyMinBedrooms matchesMinBedrooms
  cases f.minBedrooms with
  | none => simp
  | some j =>
    cases j with
    | nan => simp
    | num n => by_cases hn : n ≠ 0 <;> simp [hn]

lemma applyMaxBedrooms_eq (f : SearchFilters) (l : List Property) :
    applyMaxBedrooms f l = l.filter (fun p => matchesMaxBedrooms f p) := by
  unfold applyMaxBedrooms matchesMaxBedrooms
  cases f.maxBedrooms with
  | none => simp
  | some j =>
    cases j with
    | nan => simp
    | num n => by_cases hn : n ≠ 0 <;> simp [hn]

lemma applyPostcode_eq (f : SearchFilters) (l : List Property) :
    applyPostcode f l = l.filter (fun p => matchesPostcode f p) := by
  unfold applyPostcode matchesPostcode
  cases f.postcodeArea with
  | none => simp
  | some a => by_cases hc : a ≠ "" <;> simp [hc]

lemma applyDateFrom_eq (f : SearchFilters) (l : List Property) :
    applyDateFrom f l = l.filter (fun p => matchesDateFrom f p) := by
  unfold applyDateFrom matchesDateFrom
  cases f.dateFrom with
  | none => simp
  | some s => by_cases hc : s ≠ "" <;> simp [hc]

lemma applyDateTo_eq (f : SearchFilters) (l : List Property) :
    applyDateTo f l = l.filter (fun p => matchesDateTo f p) := by
  unfold applyDateTo matchesDateTo
  cases f.dateTo with
  | none => simp
  | some s => by_cases hc : s ≠ "" <;> simp [hc]

/-- The eight passes collapse to one filter by the conjunction predicate:
conjunctive (AND) semantics, independent of application order. -/
lemma handleSearch_eq_filter (props : List Property) (f : SearchFilters) :
    handleSearch props f = props.filter (fun p => matchesFilters f p) := by
  unfold handleSearch
  rw [applyType_eq, applyMinPrice_eq, applyMaxPrice_eq, applyMinBedrooms_eq,
      applyMaxBedrooms_eq, applyPostcode_eq, applyDateFrom_eq, applyDateTo_eq]
  simp only [List.filter_filter]
  congr 1
  funext p
  unfold matchesFilters
  simp only [Bool.and_assoc, Bool.and_comm, Bool.and_left_comm]

/-! ## Lemmas: the storage association list -/

lemma getItem_setItem (st : Storage) (k v : String) :
    (st.setItem k v).getItem k = some v := by
  simp [Storage.getItem, Storage.setItem, List.find?]

lemma getItem_removeItem (st : Storage) (k : String) :
    (st.removeItem k).getItem k = none := by
  unfold Storage.getItem Storage.removeItem
  have h : (st.slots.filter (fun kv => kv.1 != k)).find?
      (fun kv => kv.1 == k) = none := by
    rw [List.find?_eq_none]
    intro x hx
    have hne := (List.mem_filter.mp hx).2
    simp only [bne_iff_ne, ne_eq] at hne
    simp [hne]
  rw [h]
  rfl

/-! ## Lemmas: a criterion whose guard does not fire constrains nothing -/

lemma matchesType_of_inactive (f : SearchFilters) (p : Property)
    (h : typeActive f = false) : matchesType f p = true := by
  unfold matchesType
  cases hft : f.type with
  | none => simp
  | some t =>
    have hc : ¬(t ≠ "" ∧ t ≠ "Any") := by simpa [typeActive, hft] using h
    simp [hc]

lemma matchesMinPrice_of_inactive (f : SearchFilters) (p : Property)
    (h : numActive f.minPrice = false) : matchesMinPrice f p = true := by
  unfold matchesMinPrice
  cases hft : f.minPrice with
  | none => simp
  | some j =>
    cases j with
    | nan => simp
    | num n =>
      rw [hft] at h
      have hn : n = 0 := by simpa [numActive, JsNum.truthy] using h
      simp [hn]

lemma matchesMaxPrice_of_inactive (f : SearchFilters) (p : Property)
    (h : numActive f.maxPrice = false) : matchesMaxPrice f p = true := by
  unfold matchesMaxPrice
  cases hft : f.maxPrice with
  | none => simp
  | some j =>
    cases j with
    | nan => simp
    | num n =>
      rw [hft] at h
      have hn : n = 0 := by simpa [numActive, JsNum.truthy] using h
      simp [hn]

lemma matchesMinBedrooms_of_inactive (f : SearchFilters) (p : Property)
    (h : numActive f.minBedrooms = false) : matchesMinBedrooms f p = true := by
  unfold matchesMinBedrooms
  cases hft : f.minBedrooms with
  | none => simp
  | some j =>
    cases j with
    | nan => simp
    | num n =>
      rw [hft] at h
      have hn : n = 0 := by simpa [numActive, JsNum.truthy] using h
      simp [hn]

lemma matchesMaxBedrooms_of_inactive (f : SearchFilters) (p : Property)
    (h : numActive f.maxBedrooms = false) : matchesMaxBedrooms f p = true := by
  unfold matchesMaxBedrooms
  cases hft : f.maxBedrooms with
  | none => simp
  | some j =>
    cases j with
    | nan => simp
    | num n =>
      rw [hft] at h
      have hn : n = 0 := by simpa [numActive, JsNum.truthy] using h
      simp [hn]

lemma matchesPostcode_of_inactive (f : SearchFilters) (p : Property)
    (h : strActive f.postcodeArea = false) : matchesPostcode f p = true := by
  unfold matchesPostcode
  cases hft : f.postcodeArea with
  | none => simp
  | some s =>
    rw [hft] at h
    have hs : s = "" := by simpa [strActive] using h
    simp [hs]

lemma matchesDateFrom_of_inactive (f : SearchFilters) (p : Property)
    (h : strActive f.dateFrom = false) : matchesDateFrom f p = true := by
  unfold matchesDateFrom
  cases hft : f.dateFrom with
  | none => simp
  | some s =>
    rw [hft] at h
    have hs : s = "" := by simpa [strActive] using h
    simp [hs]

lemma matchesDateTo_of_inactive (f : SearchFilters) (p : Property)
    (h : strActive f.dateTo = false) : matchesDateTo f p = true := by
  unfold matchesDateTo
  cases hft : f.dateTo with
  | none => simp
  | some s =>
    rw [hft] at h
    have hs : s = "" := by simpa [strActive] using h
    simp [hs]

lemma matchesFilters_of_inactive (f : SearchFilters) (p : Property)
    (h : criterionActive f = false) : matchesFilters f p = true := by
  unfold criterionActive at h
  simp only [Bool.or_eq_false_iff] at h
  have h1 := h.1.1.1.1.1.1.1
  have h2 := h.1.1.1.1.1.1.2
  have h3 := h.1.1.1.1.1.2
  have h4 := h.1.1.1.1.2
  have h5 := h.1.1.1.2
  have h6 := h.1.1.2
  have h7 := h.1.2
  have h8 := h.2
  unfold matchesFilters
  rw [matchesType_of_inactive f p h1, matchesMinPrice_of_inactive f p h2,
      matchesMaxPrice_of_inactive f p h3,
      matchesMinBedrooms_of_inactive f p h4,
      matchesMaxBedrooms_of_inactive f p h5,
      matchesPostcode_of_inactive f p h6, matchesDateFrom_of_inactive f p h7,
      matchesDateTo_of_inactive f p h8]
  rfl

/-! ## Sample records used by witnesses and counterexamples -/

def houseSW1 : Property :=
  ⟨1, "House", 3, 500000, "London", "", "2024-01-01", "", [], "", "Freehold",
   "SW1"⟩

def flatNW1 : Property :=
  ⟨2, "Flat", 1, 300000, "London", "", "2024-06-01", "", [], "", "Leasehold",
   "NW1"⟩

/-- A stale copy of `houseSW1`: same `id`, different field values. -/
def houseSW1Stale : Property := { houseSW1 with price := 999 }

/-! ## Claim theorems -/

/-- C1: a record is in `handleSearch`'s result iff it is in the catalog and
satisfies every present criterion (`matchesFilters`, the conjunction of the
per-criterion predicates, a criterion counting as present exactly when its
truthiness guard fires: type equality unless "Any", inclusive price and
bedroom bounds, case-insensitive postcode containment, inclusive date range
after parsing both sides as dates); the result is a sublist of the catalog
(order preserved, never reordered); and with no criterion present the full
catalog is returned unchanged. -/
theorem handleSearch_filter_semantics (props : List Property)
    (f : SearchFilters) :
    (∀ p, p ∈ handleSearch props f ↔ p ∈ props ∧ matchesFilters f p = true)
  ∧ (handleSearch props f).Sublist props
  ∧ (criterionActive f = false → handleSearch props f = props) := by
  refine ⟨?_, ?_, ?_⟩
  · intro p
    rw [handleSearch_eq_filter]
    simp [List.mem_filter]
  · rw [handleSearch_eq_filter]
    exact List.filter_sublist _
  · intro h
    rw [handleSearch_eq_filter]
    exact List.filter_eq_self.mpr fun p _ => matchesFilters_of_inactive f p h

/-- Witness for C1: on a concrete two-record catalog with no criterion set,
the search returns the catalog unchanged. -/
theorem handleSearch_filter_semantics_w :
    criterionActive {} = false
  ∧ handleSearch [houseSW1, flatNW1] {} = [houseSW1, flatNW1] :=
  ⟨by decide,
   (handleSearch_filter_semantics [houseSW1, flatNW1] {}).2.2 (by decide)⟩

/-- C2: `handleFavorite` removes the stored entries whose `id` equals the
record's `id` when one is present (id equality only — the toggled record
itself need not be the stored value), and otherwise appends the record at
the end. -/
theorem handleFavorite_toggle_by_id (favs : List Property) (p : Property) :
    ((∃ q ∈ favs, q.id = p.id) →
        handleFavorite favs p = favs.filter (fun fav => fav.id != p.id))
  ∧ ((∀ q ∈ favs, q.id ≠ p.id) → handleFavorite favs p = favs ++ [p]) := by
  constructor
  · rintro ⟨q, hq, hid⟩
    have hc : favs.any (fun fav => fav.id == p.id) = true :=
      List.any_eq_true.mpr ⟨q, hq, by simp [hid]⟩
    simp [handleFavorite, hc]
  · intro h
    have hc : favs.any (fun fav => fav.id == p.id) = false := by
      rw [List.any_eq_false]
      intro q hq
      simp [h q hq]
    simp [handleFavorite, hc]

/-- Witness for C2: toggling with a stale copy (same `id`, different value)
removes the stored original. -/
theorem handleFavorite_toggle_by_id_w :
    handleFavorite [houseSW1] houseSW1Stale = [] := by
  have h := (handleFavorite_toggle_by_id [houseSW1] houseSW1Stale).1
    ⟨houseSW1, by simp, rfl⟩
  exact h.trans (by decide)

/-- C3: the Index page's favorite toggle writes the serialized snapshot of
the new collection under `propertyFavorites` before returning, and clearing
empties the collection and erases the key (it does not write an empty
list). -/
theorem favorites_persisted_on_mutation (st : IndexState) (p : Property) :
    (handleFavoriteIdx st p).storage.getItem favoritesKey
        = some (stringifyProps (handleFavoriteIdx st p).favorites)
  ∧ (handleFavoriteIdx st p).favorites = handleFavorite st.favorites p
  ∧ (clearFavorites st).favorites = []
  ∧ (clearFavorites st).storage.getItem favoritesKey = none := by
  refine ⟨?_, rfl, rfl, ?_⟩
  · exact getItem_setItem st.storage favoritesKey
      (stringifyProps (handleFavorite st.favorites p))
  · exact getItem_removeItem st.storage favoritesKey

/-- C4 counterexample: the favorites panel's remove callback is the toggle
itself, so removing a record whose `id` is absent is not a no-op — it
appends the record. -/
theorem panel_remove_not_noop_cex :
    handleFavorite [] houseSW1 = [houseSW1]
  ∧ handleFavorite [] houseSW1 ≠ [] := by decide

/-- C4 amended: the panel's remove callback (`handleFavorite`) removes every
entry carrying the record's `id` when one is present — keeping exactly the
other entries — but when the `id` is absent it appends the record instead
of leaving the collection unchanged. -/
theorem panel_remove_spec (favs : List Property) (p : Property) :
    ((∃ q ∈ favs, q.id = p.id) →
        ((∀ q ∈ handleFavorite favs p, q ∈ favs ∧ q.id ≠ p.id)
          ∧ ∀ q ∈ favs, q.id ≠ p.id → q ∈ handleFavorite favs p))
  ∧ ((∀ q ∈ favs, q.id ≠ p.id) → handleFavorite favs p = favs ++ [p]) := by
  constructor
  · rintro ⟨w, hw, hwid⟩
    have hc : favs.any (fun fav => fav.id == p.id) = true :=
      List.any_eq_true.mpr ⟨w, hw, by simp [hwid]⟩
    have he : handleFavorite favs p
        = favs.filter (fun fav => fav.id != p.id) := by
      simp [handleFavorite, hc]
    rw [he]
    constructor
    · intro q hq
      have hm := List.mem_filter.mp hq
      exact ⟨hm.1, by simpa using hm.2⟩
    · intro q hq hne
      exact List.mem_filter.mpr ⟨hq, by simpa using hne⟩
  · intro h
    have hc : favs.any (fun fav => fav.id == p.id) = false := by
      rw [List.any_eq_false]
      intro q hq
      simp [h q hq]
    simp [handleFavorite, hc]

/-- Witness for C4 amended: removing `houseSW1` from a two-element
collection drops it and keeps the other entry. -/
theorem panel_remove_spec_w :
    houseSW1 ∉ handleFavorite [houseSW1, flatNW1] houseSW1
  ∧ flatNW1 ∈ handleFavorite [houseSW1, flatNW1] houseSW1 := by
  have h := (panel_remove_spec [houseSW1, flatNW1] houseSW1).1
    ⟨houseSW1, by simp, rfl⟩
  constructor
  · intro hm
    exact (h.1 houseSW1 hm).2 rfl
  · exact h.2 flatNW1 (by simp) (by decide)

/-- C5 counterexample: a stored value that is not parseable makes hydration
propagate the parse error; it does not yield the empty collection. -/
def corruptStorage : Storage := ⟨[(favoritesKey, "oops")]⟩

theorem hydrate_malformed_cex :
    hydrateFavorites corruptStorage = LoadResult.thrown "SyntaxError"
  ∧ hydrateFavorites corruptStorage ≠ LoadResult.loaded [] := by decide

/-- C5 amended: hydration with a missing key yields the empty collection
and no error, but a present non-empty value that fails to parse propagates
the parse exception (there is no fail-safe path in the source). -/
theorem hydrate_spec (st : Storage) :
    (st.getItem favoritesKey = none →
        hydrateFavorites st = LoadResult.loaded [])
  ∧ (∀ s, st.getItem favoritesKey = some s → s ≠ "" → parseProps s = none →
        hydrateFavorites st = LoadResult.thrown "SyntaxError") := by
  constructor
  · intro h
    unfold hydrateFavorites
    rw [h]
  · intro s hs hne hp
    unfold hydrateFavorites
    rw [hs]
    show (if s = "" then LoadResult.loaded []
        else match parseProps s with
          | some favs => LoadResult.loaded favs
          | none => LoadResult.thrown "SyntaxError")
      = LoadResult.thrown "SyntaxError"
    rw [if_neg hne, hp]

/-- Witness for C5 amended: empty storage hydrates to the empty list, and a
garbage value makes hydration propagate the exception. -/
theorem hydrate_spec_w :
    hydrateFavorites ⟨[]⟩ = LoadResult.loaded []
  ∧ hydrateFavorites ⟨[(favoritesKey, "zzz")]⟩
      = LoadResult.thrown "SyntaxError" :=
  ⟨(hydrate_spec ⟨[]⟩).1 rfl,
   (hydrate_spec ⟨[(favoritesKey, "zzz")]⟩).2 "zzz" (by decide) (by decide)
     (by decide)⟩

/-- C6: a malformed numeric criterion — `NaN`, as produced by `parseInt` on
a non-numeric or empty field — is treated as absent by every stage of the
pipeline: the search result equals the result with the criterion omitted
(and the total embedding never throws), and the form layer itself already
stores `NaN` as `undefined`. -/
theorem malformed_numeric_ignored (props : List Property)
    (f : SearchFilters) :
    handleSearch props { f with minPrice := some JsNum.nan }
        = handleSearch props { f with minPrice := none }
  ∧ handleSearch props { f with maxPrice := some JsNum.nan }
        = handleSearch props { f with maxPrice := none }
  ∧ handleSearch props { f with minBedrooms := some JsNum.nan }
        = handleSearch props { f with minBedrooms := none }
  ∧ handleSearch props { f with maxBedrooms := some JsNum.nan }
        = handleSearch props { f with maxBedrooms := none }
  ∧ handleFilterChangeMinPrice f JsNum.nan = { f with minPrice := none }
  ∧ handleFilterChangeMaxPrice f JsNum.nan = { f with maxPrice := none } :=
  ⟨rfl, rfl, rfl, rfl, rfl, rfl⟩

/-- C7 counterexample: a record priced `1` with the single criterion
`maxPrice = price - 1 = 0` is NOT excluded — `0` is falsy, so the criterion
is dropped and the record is returned. -/
def priceOne : Property :=
  ⟨3, "House", 2, 1, "London", "", "2024-03-01", "", [], "", "Freehold",
   "E1"⟩

theorem maxPrice_boundary_cex :
    priceOne ∈ handleSearch [priceOne]
      { maxPrice := some (JsNum.num ((priceOne.price : Int) - 1)) } := by
  decide

/-- C7 amended: filtering with the single criterion
`maxPrice = R.price - 1` excludes `R` for every non-negative price other
than `1` (for price `1` the criterion value is the falsy `0` and imposes no
constraint). -/
theorem maxPrice_boundary_excludes (catalog : List Property) (R : Property)
    (h : R.price ≠ 1) :
    R ∉ handleSearch catalog
      { maxPrice := some (JsNum.num ((R.price : Int) - 1)) } := by
  rw [handleSearch_eq_filter]
  intro hm
  have hmf := (List.mem_filter.mp hm).2
  unfold matchesFilters at hmf
  simp only [Bool.and_eq_true] at hmf
  have hmp : matchesMaxPrice
      { maxPrice := some (JsNum.num ((R.price : Int) - 1)) } R = true :=
    hmf.1.1.1.1.1.2
  have hn : ((R.price : Int) - 1) ≠ 0 := by
    intro he
    apply h
    omega
  have hmp2 : (if ((R.price : Int) - 1) ≠ 0 then
      decide ((R.price : Int) ≤ (R.price : Int) - 1) else true) = true := hmp
  rw [if_pos hn] at hmp2
  have := of_decide_eq_true hmp2
  omega

/-- Witness for C7 amended: a record priced `5` is excluded by
`maxPrice = 4`. -/
def priceFive : Property :=
  ⟨4, "House", 2, 5, "London", "", "2024-03-02", "", [], "", "Freehold",
   "E2"⟩

theorem maxPrice_boundary_excludes_w :
    priceFive ∉ handleSearch [priceFive]
      { maxPrice := some (JsNum.num ((priceFive.price : Int) - 1)) } :=
  maxPrice_boundary_excludes [priceFive] priceFive (by decide)

/-- C8 counterexample: a catalog record with `id = 0` IS returned for the id
text "0" — the code does not treat a zero id specially, so "zero id yields
NotFound" fails on catalogs containing a zero id. -/
def zeroProp : Property :=
  ⟨0, "House", 1, 10, "London", "", "2024-01-02", "", [], "", "Freehold",
   "W1"⟩

theorem findById_zero_cex : findById [zeroProp] (some "0") = some zeroProp := by
  decide

/-- C8 amended: provided the catalog's ids are nonzero and pairwise
distinct (as the catalog invariant guarantees), the lookup parses the route
text with `parseInt` and returns the unique record with the parsed id; an
unparseable text, a parsed id matching no record, and a parsed zero id all
yield the explicit NotFound outcome (`none`), never an exception. -/
theorem findById_spec (catalog : List Property) (t : String)
    (hpos : ∀ p ∈ catalog, p.id ≠ 0)
    (huniq : catalog.Pairwise (fun a b => a.id ≠ b.id)) :
    (parseIntJs t = JsNum.nan → findById catalog (some t) = none)
  ∧ (∀ p ∈ catalog, parseIntJs t = JsNum.num (p.id : Int) →
        findById catalog (some t) = some p)
  ∧ ((∀ p ∈ catalog, JsNum.num (p.id : Int) ≠ parseIntJs t) →
        findById catalog (some t) = none)
  ∧ (parseIntJs t = JsNum.num 0 → findById catalog (some t) = none) := by
  have hzero : catalog.find? (fun p => (p.id : Int) == (0 : Int)) = none := by
    rw [List.find?_eq_none]
    intro p hp
    simp only [beq_iff_eq, Nat.cast_eq_zero]
    exact hpos p hp
  by_cases ht : t = ""
  · subst ht
    have hfb0 : findById catalog (some "")
        = catalog.find? (fun p => (p.id : Int) == (0 : Int)) := rfl
    refine ⟨fun _ => hfb0.trans hzero, fun p hp hparse => ?_,
      fun _ => hfb0.trans hzero, fun _ => hfb0.trans hzero⟩
    have hcontra : JsNum.nan = JsNum.num (p.id : Int) := hparse
    exact JsNum.noConfusion hcontra
  · have hfb : findById catalog (some t)
        = (match parseIntJs t with
           | JsNum.nan => none
           | JsNum.num n => catalog.find? (fun p => (p.id : Int) == n)) := by
      unfold findById
      simp [ht]
    refine ⟨fun h => ?_, fun p hp hparse => ?_, fun h => ?_, fun h => ?_⟩
    · rw [hfb, h]
    · rw [hfb, hparse]
      cases hf : catalog.find? (fun q => (q.id : Int) == (p.id : Int)) with
      | none =>
        exfalso
        have := List.find?_eq_none.mp hf p hp
        simp at this
      | some q =>
        have hqm := List.mem_of_find?_eq_some hf
        have hqp := List.find?_some hf
        have hqid : q.id = p.id := by simpa using hqp
        by_cases hqe : q = p
        · exact hqe ▸ hf
        · exfalso
          have hsymm : Symmetric (fun a b : Property => a.id ≠ b.id) :=
            fun a b hab he => hab he.symm
          exact List.Pairwise.forall hsymm huniq hqm hp hqe hqid
    · rw [hfb]
      cases hp : parseIntJs t with
      | nan => rfl
      | num n =>
        rw [List.find?_eq_none]
        intro q hq
        simp only [beq_iff_eq]
        intro he
        apply h q hq
        rw [hp]
        exact congrArg JsNum.num he
    · rw [hfb, h]
      exact hzero

/-- Witness for C8 amended: on a two-record catalog, the text "2" finds the
record with id 2 and the text "abc" yields NotFound. -/
theorem findById_spec_w :
    findById [houseSW1, flatNW1] (some "2") = some flatNW1
  ∧ findById [houseSW1, flatNW1] (some "abc") = none := by
  have h := findById_spec [houseSW1, flatNW1] "2" (by decide) (by decide)
  have h2 := findById_spec [houseSW1, flatNW1] "abc" (by decide) (by decide)
  exact ⟨h.2.1 flatNW1 (by decide) (by decide), h2.1 (by decide)⟩

/-- C9: toggling the same record twice yields a collection with exactly the
same id-membership as the original (positions may differ: a re-added entry
lands at the end). -/
theorem toggle_toggle_membership (favs : List Property) (p : Property)
    (n : Nat) :
    (∃ q ∈ handleFavorite (handleFavorite favs p) p, q.id = n)
  ↔ (∃ q ∈ favs, q.id = n) := by
  cases hc : favs.any (fun fav => fav.id == p.id) with
  | true =>
    have h1 : handleFavorite favs p
        = favs.filter (fun fav => fav.id != p.id) := by
      simp [handleFavorite, hc]
    have h2 : (favs.filter (fun fav => fav.id != p.id)).any
        (fun fav => fav.id == p.id) = false := by
      rw [List.any_eq_false]
      intro x hx
      have hxf := (List.mem_filter.mp hx).2
      simp only [bne_iff_ne, ne_eq] at hxf
      simp [hxf]
    have h3 : handleFavorite (handleFavorite favs p) p
        = favs.filter (fun fav => fav.id != p.id) ++ [p] := by
      rw [h1]
      simp [handleFavorite, h2]
    obtain ⟨w, hw, hwid⟩ := List.any_eq_true.mp hc
    have hwid2 : w.id = p.id := by simpa using hwid
    rw [h3]
    constructor
    · rintro ⟨q, hq, rfl⟩
      rcases List.mem_append.mp hq with hq2 | hq2
      · exact ⟨q, (List.mem_filter.mp hq2).1, rfl⟩
      · have hqp : q = p := by simpa using hq2
        exact ⟨w, hw, by rw [hwid2, hqp]⟩
    · rintro ⟨q, hq, rfl⟩
      by_cases hqp : q.id = p.id
      · refine ⟨p, ?_, hqp.symm⟩
        simp [List.mem_append]
      · exact ⟨q, List.mem_append.mpr (Or.inl (List.mem_filter.mpr
          ⟨hq, by simpa using hqp⟩)), rfl⟩
  | false =>
    have hall : ∀ q ∈ favs, q.id ≠ p.id := by
      intro q hq
      have := List.any_eq_false.mp hc q hq
      simpa using this
    have h1 : handleFavorite favs p = favs ++ [p] := by
      simp [handleFavorite, hc]
    have h2 : (favs ++ [p]).any (fun fav => fav.id == p.id) = true := by
      simp
    have h3 : handleFavorite (handleFavorite favs p) p
        = (favs ++ [p]).filter (fun fav => fav.id != p.id) := by
      rw [h1]
      simp [handleFavorite, h2]
    have h4 : (favs ++ [p]).filter (fun fav => fav.id != p.id) = favs := by
      rw [List.filter_append]
      have h5 : favs.filter (fun fav => fav.id != p.id) = favs :=
        List.filter_eq_self.mpr fun q hq => by simpa using hall q hq
      simp [h5]
    rw [h3, h4]

/-- C10: a numeric criterion present with value `0`, and a present
empty-string postcode area, impose no constraint — each truthiness guard
treats them as absent, so e.g. `maxPrice = 0` does not restrict results to
zero-priced records. -/
theorem falsy_criteria_no_constraint (props : List Property)
    (f : SearchFilters) :
    handleSearch props { f with minPrice := some (JsNum.num 0) }
        = handleSearch props { f with minPrice := none }
  ∧ handleSearch props { f with maxPrice := some (JsNum.num 0) }
        = handleSearch props { f with maxPrice := none }
  ∧ handleSearch props { f with minBedrooms := some (JsNum.num 0) }
        = handleSearch props { f with minBedrooms := none }
  ∧ handleSearch props { f with maxBedrooms := some (JsNum.num 0) }
        = handleSearch props { f with maxBedrooms := none }
  ∧ handleSearch props { f with postcodeArea := some "" }
        = handleSearch props { f with postcodeArea := none } :=
  ⟨rfl, rfl, rfl, rfl, rfl⟩
